import Mathlib

/-!
Verification of the sockpp address and acceptor layer.

The native address structures (`sockaddr`, `sockaddr_un`, `sockaddr_in6`,
`sockaddr_storage`) are modelled as raw byte lists (`List Nat`, one entry
per byte), matching the Linux/x86-64 layouts the code is written against.
The address classes of the library are binary-overlaid on those structures,
so an address value is exactly its byte representation, and the C `memcpy`
/ `strncpy` / `memcmp` calls of the constructors and comparators become the
corresponding list operations.
-/

namespace Sockpp

/-- Address family constant `AF_UNIX` (Linux). -/
def AF_UNIX : Nat := 1

/-- Address family constant `AF_INET` (Linux). -/
def AF_INET : Nat := 2

/-- Address family constant `AF_INET6` (Linux). -/
def AF_INET6 : Nat := 10

/-- Size in bytes of the generic `sockaddr` structure. -/
def sizeof_sockaddr : Nat := 16

/-- Size in bytes of `sockaddr_in` (IPv4). -/
def sizeof_sockaddr_in : Nat := 16

/-- Size in bytes of `sockaddr_in6` (IPv6): family 2, port 2, flowinfo 4,
address 16, scope id 4. -/
def sizeof_sockaddr_in6 : Nat := 28

/-- Size in bytes of the `sun_path` array of `sockaddr_un`. -/
def sizeof_sun_path : Nat := 108

/-- Size in bytes of `sockaddr_un`: 2-byte family plus the 108-byte path. -/
def sizeof_sockaddr_un : Nat := 110

/-- Size in bytes of `sockaddr_storage`. -/
def sizeof_sockaddr_storage : Nat := 128

/-- Modelled from the spec: `unix_address.h` is not under `src/`; per the
spec, the path is truncated to the maximum native path length, which is
the size of `sun_path` (108 on Linux). -/
def MAX_PATH_NAME : Nat := 108

/-- Read of the leading 2-byte `sa_family_t` field (little-endian), as done
by `*(reinterpret_cast<const sa_family_t*>(&addr))` and by reading the
`sun_family` / `sin6_family` member. -/
def famOf (bytes : List Nat) : Nat :=
  bytes.getD 0 0 + 256 * bytes.getD 1 0

/-- Little-endian 2-byte representation of an `sa_family_t` value. -/
def famBytes (f : Nat) : List Nat := [f % 256, f / 256 % 256]

/-- C `memcpy(dst, src, n)` where `dst` is (the byte image of) the object
being written: the first `n` bytes come from `src`, the rest of `dst` is
untouched.  When `n` exceeds `dst.length` the result is the full written
footprint, which then extends past the destination object. -/
def memcpy (dst src : List Nat) (n : Nat) : List Nat :=
  src.take n ++ dst.drop n

/-- C `strncpy(dst, src, n)` for a NUL-free source string `src`: at most
`n` bytes of `src` are copied and, when `src` is shorter than `n`, the
remainder up to `n` bytes is zero-filled.  Bytes of `dst` past `n` are
untouched. -/
def strncpy (dst src : List Nat) (n : Nat) : List Nat :=
  (src.take n ++ List.replicate (n - src.length) 0) ++ dst.drop n

/-- C `memcmp` over two equal-length byte runs: 0 iff they agree, otherwise
the sign of the first difference. -/
def memcmpBytes : List Nat → List Nat → Int
  | x :: xs, y :: ys =>
    if x < y then -1 else if y < x then 1 else memcmpBytes xs ys
  | _, _ => 0

/-- Bytes of a C string: everything up to the first NUL. -/
def cString (bytes : List Nat) : List Nat :=
  bytes.takeWhile (fun b => b != 0)

/-! ### unix_address (unix_address.cpp)

A `unix_address` is overlaid on `sockaddr_un`: 110 bytes, family at
offset 0, `sun_path` at offset 2.  The constructors do not zero the
object first, so each takes the pre-construction contents `g` of the
110 bytes as an explicit argument. -/

/-- `unix_address::unix_address(const string&)`: sets `sun_family` to
`AF_UNIX` and `strncpy`s the path into `sun_path` bounded by
`MAX_PATH_NAME`. -/
def unix_address_of_path (g path : List Nat) : List Nat :=
  famBytes AF_UNIX ++ strncpy (g.drop 2) path MAX_PATH_NAME

/-- `unix_address::unix_address(const sockaddr&)`: rejects a family other
than `AF_UNIX` with `std::invalid_argument`, otherwise
`memcpy(sockaddr_ptr(), &addr, sizeof(sockaddr))`. -/
def unix_address_of_sockaddr (g sa : List Nat) : Except String (List Nat) :=
  if famOf sa ≠ AF_UNIX then .error "Not a UNIX-domain address"
  else .ok (memcpy g sa sizeof_sockaddr)

/-- Size argument of the `memcpy` in `unix_address(const sockaddr&)`. -/
def unix_address_of_sockaddr_copyLen : Nat := sizeof_sockaddr

/-- `unix_address::unix_address(const sockaddr_un&)`: rejects a family
other than `AF_UNIX` with `std::invalid_argument`, otherwise
`memcpy(sockaddr_un_ptr(), &addr, sizeof(sockaddr_un))`. -/
def unix_address_of_sockaddr_un (g un : List Nat) : Except String (List Nat) :=
  if famOf un ≠ AF_UNIX then .error "Not initialized as a UNIX-domain address"
  else .ok (memcpy g un sizeof_sockaddr_un)

/-- Size argument of the `memcpy` in `unix_address(const sockaddr_un&)`. -/
def unix_address_of_sockaddr_un_copyLen : Nat := sizeof_sockaddr_un

/-- Bound of the `strncpy` in `unix_address(const string&)`. -/
def unix_address_of_path_copyLen : Nat := MAX_PATH_NAME

/-- The `sun_path` region of a `unix_address` (offset 2 onward). -/
def unix_sun_path (a : List Nat) : List Nat := a.drop 2

/-- Modelled from the spec: `unix_address.h` is not under `src/`; `path()`
returns the stored path, i.e. the C string held in `sun_path`. -/
def unix_path (a : List Nat) : List Nat := cString (unix_sun_path a)

/-- Byte values of the literal `"unix:"` streamed by
`operator<<(ostream&, const unix_address&)`. -/
def unixTag : List Nat := [117, 110, 105, 120, 58]

/-- `operator<<(ostream&, const unix_address&)` in unix_address.cpp:
streams `"unix:"` and then `sun_path` as a C string. -/
def unix_show (a : List Nat) : List Nat :=
  unixTag ++ cString (unix_sun_path a)

/-! ### inet6_address (inet6_address.h)

An `inet6_address` is overlaid on `sockaddr_in6`: 28 bytes, family at
offset 0, port at offset 2 (big-endian on the wire), flowinfo at 4,
the 16 address bytes at offset 8, scope id at 24. -/

/-- `inet6_address::zero()` / the default constructor: all 28 bytes 0. -/
def inet6_zeroed : List Nat := List.replicate sizeof_sockaddr_in6 0

/-- `inet6_address::inet6_address(const sockaddr_storage&)`:
`memcpy(sockaddr_ptr(), &addr, sizeof(sockaddr_storage))` with no family
check.  The result is the full 128-byte written footprint. -/
def inet6_address_of_storage (g st : List Nat) : List Nat :=
  memcpy g st sizeof_sockaddr_storage

/-- Size argument of the `memcpy` in `inet6_address(const sockaddr_storage&)`. -/
def inet6_address_of_storage_copyLen : Nat := sizeof_sockaddr_storage

/-- The 28 bytes of the `inet6_address` object after the
`sockaddr_storage` constructor's (overflowing) `memcpy`. -/
def inet6_address_of_storage_val (g st : List Nat) : List Nat :=
  (inet6_address_of_storage g st).take sizeof_sockaddr_in6

/-- `inet6_address::inet6_address(const sock_address&)`:
`memcpy(sockaddr_ptr(), addr.sockaddr_ptr(), sizeof(sockaddr_in))` with no
family check — note the size is that of the IPv4 structure. -/
def inet6_address_of_sock_address (g sab : List Nat) : List Nat :=
  memcpy g sab sizeof_sockaddr_in

/-- Size argument of the `memcpy` in `inet6_address(const sock_address&)`. -/
def inet6_address_of_sock_address_copyLen : Nat := sizeof_sockaddr_in

/-- `inet6_address::inet6_address(const sockaddr_in6&)`:
`memcpy(sockaddr_in6_ptr(), &addr, sizeof(sockaddr_in6))`, no family check. -/
def inet6_address_of_sockaddr_in6 (g s6 : List Nat) : List Nat :=
  memcpy g s6 sizeof_sockaddr_in6

/-- Size argument of the `memcpy` in `inet6_address(const sockaddr_in6&)`. -/
def inet6_address_of_sockaddr_in6_copyLen : Nat := sizeof_sockaddr_in6

/-- `inet6_address::inet6_address(const inet6_address&)`:
`memcpy(this, &addr, sizeof(inet6_address))`. -/
def inet6_address_copy (g a : List Nat) : List Nat :=
  memcpy g a sizeof_sockaddr_in6

/-- `inet6_address::address()`: the 16-byte `sin6_addr` field, at byte
offset 8 of the structure. -/
def inet6_address_field (a : List Nat) : List Nat :=
  (a.drop 8).take 16

/-- `inet6_address::operator[](int i)`: reads `sin6_addr.s6_addr[i]` with
no bounds check, so only indices in `[0, 16)` are in its defined domain;
outside it the read is undefined and the embedding yields `none`. -/
def inet6_index (a : List Nat) (i : Int) : Option Nat :=
  if 0 ≤ i ∧ i < 16 then (inet6_address_field a).get? i.toNat else none

/-- `inet6_address::port()`: `ntohs(sin6_port)`, the big-endian 2-byte
field at offset 2. -/
def inet6_port (a : List Nat) : Nat :=
  256 * a.getD 2 0 + a.getD 3 0

/-- `operator==(const inet6_address&, const inet6_address&)`: identity of
the two objects, or `memcmp` over `sizeof(inet6_address)` returning 0.
For value arguments identity implies byte equality, so the observable
behaviour is the `memcmp` test. -/
def inet6_address_eq (a b : List Nat) : Bool :=
  memcmpBytes (a.take sizeof_sockaddr_in6) (b.take sizeof_sockaddr_in6) == 0

/-- `operator!=(const inet6_address&, const inet6_address&)`: the exact
negation of `operator==`. -/
def inet6_address_ne (a b : List Nat) : Bool :=
  !(inet6_address_eq a b)

/-- One hexadecimal digit character code. -/
def hexDigit (n : Nat) : Nat := if n < 10 then 48 + n else 87 + n

/-- Modelled from the spec: the body of `inet6_address::to_string` is not
under `src/`; per its doc comment it renders the stored address with
`inet_ntop`, abstracted here as a fixed rendering of the 16 bytes. -/
def inet6_ntop (addr16 : List Nat) : List Nat :=
  addr16.foldr (fun b acc => hexDigit (b / 16) :: hexDigit (b % 16) :: acc) []

/-- Decimal character codes of a number. -/
def natBytes (n : Nat) : List Nat := (Nat.toDigits 10 n).map Char.toNat

/-- Modelled from the spec: the body of `inet6_address::to_string` is not
under `src/`; per its doc comment it produces the printable form
`"[address]:port"`. -/
def inet6_to_string (a : List Nat) : List Nat :=
  [91] ++ inet6_ntop (inet6_address_field a) ++ [93, 58] ++ natBytes (inet6_port a)

/-! ### acceptor (acceptor.cpp / acceptor.h)

The acceptor owns a descriptor (`handle`, `-1` when invalid), the cached
bound address `addr_` (a `sock_address`: the copied bytes and the length),
and the socket's last-error slot.  The outcomes of the native calls
(`::bind`, `::accept`) and the accompanying `errno` enter the embedding as
explicit arguments. -/

/-- State of an `acceptor` object: the underlying socket handle, the
cached bound address `addr_`, and the last-error slot. -/
structure AcceptorState where
  handle : Int
  addr_ : Option (List Nat × Nat)
  lastErr : Int
deriving DecidableEq

/-- Modelled from the spec: `socket.h` (with `check_ret_bool`) is not
under `src/`; per the spec's error model it records the native error code
— cleared on success — and reports whether the call succeeded
(a non-negative return). -/
def check_ret_bool (s : AcceptorState) (ret errno : Int) : Bool × AcceptorState :=
  if 0 ≤ ret then (true, { s with lastErr := 0 })
  else (false, { s with lastErr := errno })

/-- Modelled from the spec: `socket.h` (with `check_ret`) is not under
`src/`; per the spec's error model it records the native error code —
cleared on success — and passes the native return value through. -/
def check_ret (s : AcceptorState) (ret errno : Int) : Int × AcceptorState :=
  if 0 ≤ ret then (ret, { s with lastErr := 0 })
  else (ret, { s with lastErr := errno })

/-- `acceptor::bind(const sockaddr*, socklen_t)` (acceptor.cpp):
`check_ret_bool(::bind(handle(), addr, len))`; when that reports success,
`addr_ = sock_address(addr, len)` — the `len` given bytes are cached; the
handle itself is never touched.  `ret` is the native `::bind` result. -/
def acceptor_bind (s : AcceptorState) (addr : List Nat) (len : Nat) (ret errno : Int) :
    Bool × AcceptorState :=
  let r := check_ret_bool s ret errno
  if r.1 then (true, { r.2 with addr_ := some (addr.take len, len) })
  else (false, r.2)

/-- `acceptor::open(const sockaddr*, socklen_t, int)` (acceptor.cpp): the
function body is empty — no statement executes, the state is untouched,
and control falls off the end of the `bool` function without producing a
return value (modelled as `none`). -/
def acceptor_open (s : AcceptorState) (addr : List Nat) (len : Nat) (queSize : Int) :
    Option Bool × AcceptorState :=
  (none, s)

/-- Outcome of the native `::accept` call: the new descriptor, the peer's
address bytes, and the peer address's actual length. -/
structure NativeAcceptResult where
  fd : Int
  peer : List Nat
  peerLen : Nat

/-- `acceptor<acc_socket, acc_addr>::accept()` (template acceptor.h),
instantiated at `acc_addr = inet6_address`: default-constructs the address
(zeroed), declares `socklen_t len` without initializing it (its garbage
value `lenGarbage` is an input), and calls
`check_ret(::accept(handle(), paddr, &len))`.  Modelled from POSIX, the
native call writes at most the caller-supplied `len` bytes of the peer
address into the buffer.  The result pairs the new descriptor (wrapped in
a `stream_socket`) with the address object; the acceptor's own handle and
cached address are untouched. -/
def acceptor_accept (s : AcceptorState) (lenGarbage : Nat) (r : NativeAcceptResult)
    (errno : Int) : (Int × List Nat) × AcceptorState :=
  let addr0 := inet6_zeroed
  let addr1 := memcpy addr0 r.peer (min lenGarbage r.peerLen)
  let c := check_ret s r.fd errno
  ((c.1, addr1), c.2)

/-! ### Concrete sample values used by the evaluation theorems -/

/-- Byte values of the path string `"/tmp/sock"`. -/
def pathTmpSock : List Nat := [47, 116, 109, 112, 47, 115, 111, 99, 107]

/-- Byte values of the path string `"/tmp/a_longer_socket_path"`
(25 bytes, longer than the 14 path bytes that survive a
`sizeof(sockaddr)` copy). -/
def longPathBytes : List Nat :=
  [47, 116, 109, 112, 47, 97, 95, 108, 111, 110, 103, 101, 114, 95, 115,
   111, 99, 107, 101, 116, 95, 112, 97, 116, 104]

/-- A 110-byte zeroed `sockaddr_un` region. -/
def zeros110 : List Nat := List.replicate sizeof_sockaddr_un 0

/-- Pre-construction garbage contents of a `unix_address` object: 110
bytes of 0xAA. -/
def garbage110 : List Nat := List.replicate sizeof_sockaddr_un 170

/-- Pre-construction garbage contents of an `inet6_address` object: 28
bytes of 0xAA. -/
def garbage28 : List Nat := List.replicate sizeof_sockaddr_in6 170

/-- The `unix_address` built from `"/tmp/a_longer_socket_path"` over a
zeroed object. -/
def unixOrig : List Nat := unix_address_of_path zeros110 longPathBytes

/-- A concrete `sockaddr_in6` / `inet6_address` byte image: family
`AF_INET6`, port 8080 (big-endian `31,144`), zero flowinfo, address
`::1` (sixteenth address byte 1, at structure offset 23), zero scope. -/
def inet6Sample : List Nat :=
  [10, 0, 31, 144, 0, 0, 0, 0,
   0, 0, 0, 0, 0, 0, 0, 0, 0, 0, 0, 0, 0, 0, 0, 1,
   0, 0, 0, 0]

/-- A concrete `sockaddr_storage` byte image whose leading family field is
`AF_INET` (2), not `AF_INET6`. -/
def storageAfInet : List Nat := 2 :: 0 :: List.replicate 126 0

/-- A concrete `sockaddr` byte image whose leading family field is
`AF_INET` (2), not `AF_UNIX`. -/
def sockaddrAfInet : List Nat := 2 :: 0 :: List.replicate 14 0

/-- An acceptor whose handle 5 is open, with nothing cached. -/
def acc5 : AcceptorState := ⟨5, none, 0⟩

/-- A listening acceptor: handle 3, a cached bound address, no error. -/
def acc3 : AcceptorState := ⟨3, some ([10, 0], 28), 0⟩


/-! ### Helper lemmas -/

/-- The C `memcmp` of two equal-length byte runs is zero exactly when the
runs are identical. -/
theorem memcmpBytes_eq_zero_iff :
    ∀ (xs ys : List Nat), xs.length = ys.length → (memcmpBytes xs ys = 0 ↔ xs = ys)
  | [], [], _ => by simp [memcmpBytes]
  | [], _ :: _, h => by simp at h
  | _ :: _, [], h => by simp at h
  | x :: xs, y :: ys, h => by
    have ih := memcmpBytes_eq_zero_iff xs ys (by simpa using h)
    by_cases h1 : x < y
    · have hne : x ≠ y := Nat.ne_of_lt h1
      simp [memcmpBytes, h1, hne]
    · by_cases h2 : y < x
      · have hne : x ≠ y := (Nat.ne_of_lt h2).symm
        simp [memcmpBytes, h1, h2, hne]
      · have hxy : x = y := Nat.le_antisymm (Nat.not_lt.mp h2) (Nat.not_lt.mp h1)
        simp [memcmpBytes, h1, h2, hxy, ih]

/-- Reading a C string stops at the first NUL: a NUL-free run followed by a
zero byte reads back exactly as the run. -/
theorem cString_of_nul_free :
    ∀ (p rest : List Nat), (∀ b ∈ p, b ≠ 0) → cString (p ++ 0 :: rest) = p
  | [], rest, _ => by simp [cString]
  | a :: p, rest, h => by
    have ha : a ≠ 0 := h a (List.mem_cons_self a p)
    have hp : ∀ b ∈ p, b ≠ 0 := fun b hb => h b (List.mem_cons_of_mem a hb)
    have ih := cString_of_nul_free p rest hp
    simp only [cString, List.cons_append, List.takeWhile_cons, bne_iff_ne, ne_eq, ha,
      not_false_eq_true, if_true, List.cons.injEq, true_and]
    simpa [cString] using ih

/-- The `sun_path` region written by the path constructor: the path,
truncated to `MAX_PATH_NAME` bytes and zero-filled up to that bound. -/
theorem unix_sun_path_of_path (g p : List Nat) (hg : g.length = sizeof_sockaddr_un) :
    unix_sun_path (unix_address_of_path g p) =
      p.take MAX_PATH_NAME ++ List.replicate (MAX_PATH_NAME - p.length) 0 := by
  have hdrop : (g.drop 2).drop MAX_PATH_NAME = [] := by
    apply List.drop_eq_nil_of_le
    simp [hg, sizeof_sockaddr_un, MAX_PATH_NAME]
  simp only [unix_address_of_path, unix_sun_path, strncpy, famBytes]
  simp [hdrop]

/-! ### Claim theorems -/

/-- C1 counterexample: the claim says a native-structure constructor with a
mismatched family discriminator always fails and never silently yields an
address value.  The `inet6_address(const sockaddr_storage&)` constructor,
given a storage whose family is `AF_INET` (not `AF_INET6`), performs no
check and silently yields an address object carrying the wrong family. -/
theorem inet6_storage_ctor_ignores_family :
    famOf storageAfInet = AF_INET ∧
    AF_INET ≠ AF_INET6 ∧
    inet6_address_of_storage_val garbage28 storageAfInet =
      storageAfInet.take sizeof_sockaddr_in6 ∧
    famOf (inet6_address_of_storage_val garbage28 storageAfInet) = AF_INET := by
  refine ⟨rfl, by decide, rfl, by decide⟩

/-- C1 (amended): the `unix_address` native-structure constructors validate
the leading family discriminator — they fail with `invalid_argument` when it
is not `AF_UNIX` and succeed (copying the bytes) when it is — while the
`inet6_address` native-structure constructors perform no validation at all:
they copy whatever is given and the resulting object simply carries the
source's family field, matching or not. -/
theorem native_ctor_family_validation (g sa un g6 : List Nat) (x y : Nat) (rest : List Nat) :
    (famOf sa ≠ AF_UNIX →
      unix_address_of_sockaddr g sa = .error "Not a UNIX-domain address") ∧
    (famOf sa = AF_UNIX →
      unix_address_of_sockaddr g sa = .ok (memcpy g sa sizeof_sockaddr)) ∧
    (famOf un ≠ AF_UNIX →
      unix_address_of_sockaddr_un g un = .error "Not initialized as a UNIX-domain address") ∧
    (famOf un = AF_UNIX →
      unix_address_of_sockaddr_un g un = .ok (memcpy g un sizeof_sockaddr_un)) ∧
    famOf (inet6_address_of_storage_val g6 (x :: y :: rest)) = famOf (x :: y :: rest) ∧
    inet6_address_of_sock_address g6 (x :: y :: rest) =
      memcpy g6 (x :: y :: rest) sizeof_sockaddr_in ∧
    famOf (inet6_address_of_sock_address g6 (x :: y :: rest)) = famOf (x :: y :: rest) ∧
    inet6_address_of_sockaddr_in6 g6 (x :: y :: rest) =
      memcpy g6 (x :: y :: rest) sizeof_sockaddr_in6 ∧
    famOf (inet6_address_of_sockaddr_in6 g6 (x :: y :: rest)) = famOf (x :: y :: rest) := by
  refine ⟨?_, ?_, ?_, ?_, ?_, rfl, ?_, rfl, ?_⟩
  · intro h
    simp [unix_address_of_sockaddr, h]
  · intro h
    simp [unix_address_of_sockaddr, h]
  · intro h
    simp [unix_address_of_sockaddr_un, h]
  · intro h
    simp [unix_address_of_sockaddr_un, h]
  · show famOf (x :: y :: ((rest.take 126 ++ g6.drop 128).take 26)) = famOf (x :: y :: rest)
    simp [famOf, List.getD_cons_zero, List.getD_cons_succ]
  · show famOf (x :: y :: (rest.take 14 ++ g6.drop 16)) = famOf (x :: y :: rest)
    simp [famOf, List.getD_cons_zero, List.getD_cons_succ]
  · show famOf (x :: y :: (rest.take 26 ++ g6.drop 28)) = famOf (x :: y :: rest)
    simp [famOf, List.getD_cons_zero, List.getD_cons_succ]

/-- C1 witness: the amended theorem applied at a concrete `sockaddr` whose
family is `AF_INET`. -/
theorem native_ctor_family_validation_witness :
    unix_address_of_sockaddr zeros110 sockaddrAfInet = .error "Not a UNIX-domain address" :=
  (native_ctor_family_validation zeros110 sockaddrAfInet zeros110 garbage28 10 0 []).1
    (by decide)

/-- C2: round-tripping an address through its own native structure is
claimed to be byte-for-byte over the family's valid length, but the
conversion constructors truncate.  At the concrete unix_address built from
the 25-byte path "/tmp/a_longer_socket_path", reconstructing through the
`sockaddr` view copies only `sizeof(sockaddr)` = 16 bytes (the rest of the
new object keeps its garbage), so the result differs from the original even
though the first 16 bytes agree; likewise `inet6_address(const
sock_address&)` copies only `sizeof(sockaddr_in)` = 16 of the 28 bytes, so
a concrete `::1` address with port 8080 does not survive. -/
theorem native_roundtrip_truncated :
    unix_address_of_sockaddr garbage110 unixOrig =
      .ok (memcpy garbage110 unixOrig sizeof_sockaddr) ∧
    memcpy garbage110 unixOrig sizeof_sockaddr ≠ unixOrig ∧
    (memcpy garbage110 unixOrig sizeof_sockaddr).take sizeof_sockaddr =
      unixOrig.take sizeof_sockaddr ∧
    inet6_address_of_sock_address garbage28 inet6Sample ≠ inet6Sample ∧
    (inet6_address_of_sock_address garbage28 inet6Sample).take sizeof_sockaddr_in =
      inet6Sample.take sizeof_sockaddr_in := by
  refine ⟨rfl, by decide, by decide, by decide, by decide⟩

/-- C3: the claim says no constructor copies more bytes than the target
type's backing structure can hold.  The `inet6_address(const
sockaddr_storage&)` constructor copies `sizeof(sockaddr_storage)` = 128
bytes into the 28-byte object — at a concrete input its written footprint
is 128 bytes long — while every other constructor respects its bound. -/
theorem inet6_storage_ctor_copy_overflow :
    sizeof_sockaddr_in6 < inet6_address_of_storage_copyLen ∧
    (inet6_address_of_storage garbage28 storageAfInet).length =
      sizeof_sockaddr_storage ∧
    unix_address_of_sockaddr_copyLen ≤ sizeof_sockaddr_un ∧
    unix_address_of_sockaddr_un_copyLen ≤ sizeof_sockaddr_un ∧
    unix_address_of_path_copyLen ≤ sizeof_sun_path ∧
    inet6_address_of_sock_address_copyLen ≤ sizeof_sockaddr_in6 ∧
    inet6_address_of_sockaddr_in6_copyLen ≤ sizeof_sockaddr_in6 := by
  refine ⟨by decide, ?_, by decide, by decide, by decide, by decide, by decide⟩
  simp [inet6_address_of_storage, memcpy, garbage28, storageAfInet,
    sizeof_sockaddr_storage, sizeof_sockaddr_in6]

/-- C4: the claim (and the comment above the function) says
`acceptor::open` performs allocate-descriptor, then bind, then listen,
leaves the acceptor fully closed on any failure, and quietly succeeds when
already open.  The function body in acceptor.cpp is empty: for every state
and every argument no step is performed, the acceptor's state is untouched,
and no return value is produced. -/
theorem acceptor_open_empty_body (s : AcceptorState) (addr : List Nat) (len : Nat)
    (queSize : Int) :
    acceptor_open s addr len queSize = (none, s) ∧
    (acceptor_open s addr len queSize).2.handle = s.handle ∧
    (acceptor_open s addr len queSize).2.addr_ = s.addr_ :=
  ⟨rfl, rfl, rfl⟩

/-- C5 counterexample: the claim says a failed `acceptor::bind` leaves the
acceptor's handle closed/invalid.  On an acceptor whose open handle is
descriptor 5, a native bind failure (return -1, errno 13) yields `false`
and leaves `addr_` unchanged — but the handle is still the open descriptor
5, not an invalid one. -/
theorem acceptor_bind_failure_keeps_handle_open :
    acceptor_bind acc5 sockaddrAfInet 16 (-1) 13 =
      (false, { acc5 with lastErr := 13 }) ∧
    (acceptor_bind acc5 sockaddrAfInet 16 (-1) 13).2.handle = 5 ∧
    (0 : Int) ≤ (acceptor_bind acc5 sockaddrAfInet 16 (-1) 13).2.handle := by
  refine ⟨by decide, by decide, by decide⟩

/-- C5 (amended): when the native bind fails, `acceptor::bind` returns
`false`, leaves the cached `addr_` unchanged and leaves the handle exactly
as it was (it is not closed or invalidated); when the native bind succeeds
it returns `true` and caches `sock_address(addr, len)` in `addr_`. -/
theorem acceptor_bind_behavior (s : AcceptorState) (addr : List Nat) (len : Nat)
    (ret errno : Int) :
    (ret < 0 →
      acceptor_bind s addr len ret errno = (false, { s with lastErr := errno })) ∧
    (0 ≤ ret →
      acceptor_bind s addr len ret errno =
        (true, { s with lastErr := 0, addr_ := some (addr.take len, len) })) := by
  constructor
  · intro h
    have hn : ¬ 0 ≤ ret := not_le.mpr h
    simp [acceptor_bind, check_ret_bool, hn]
  · intro h
    simp [acceptor_bind, check_ret_bool, h]

/-- C5 witness: the amended theorem applied at a successful native bind on
the concrete acceptor with handle 5. -/
theorem acceptor_bind_behavior_witness :
    acceptor_bind acc5 sockaddrAfInet 16 0 0 =
      (true, { acc5 with lastErr := 0, addr_ := some (sockaddrAfInet.take 16, 16) }) :=
  (acceptor_bind_behavior acc5 sockaddrAfInet 16 0 0).2 (by decide)

/-- C6: the claim says `acceptor::accept` returns a stream socket wrapping
the descriptor from the native accept together with the peer's address
correctly filled in, leaving the acceptor unchanged.  The code passes the
uninitialized local `socklen_t len` to `::accept`; at the concrete call
where that garbage value is 0 and a peer `::1` port 8080 connects on new
descriptor 7, the returned socket does wrap descriptor 7 and the acceptor's
handle and cached address are unchanged, but the returned address is the
all-zero default, not the peer's address. -/
theorem accept_uninitialized_len_loses_peer :
    acceptor_accept acc3 0 ⟨7, inet6Sample, 28⟩ 0 = ((7, inet6_zeroed), acc3) ∧
    inet6_zeroed ≠ inet6Sample ∧
    famOf inet6Sample = AF_INET6 := by
  refine ⟨by decide, by decide, by decide⟩

/-- C7: the path constructor sets the family to `AF_UNIX`, copies the path
into the fixed storage truncated to at most `MAX_PATH_NAME` bytes without
ever writing past the 110-byte structure, and for a path no longer than the
maximum stores the path itself followed by zero fill. -/
theorem unix_path_ctor_truncation (g p : List Nat) (hg : g.length = sizeof_sockaddr_un) :
    famOf (unix_address_of_path g p) = AF_UNIX ∧
    (unix_address_of_path g p).length = sizeof_sockaddr_un ∧
    unix_sun_path (unix_address_of_path g p) =
      p.take MAX_PATH_NAME ++ List.replicate (MAX_PATH_NAME - p.length) 0 ∧
    (p.length ≤ MAX_PATH_NAME →
      unix_sun_path (unix_address_of_path g p) =
        p ++ List.replicate (MAX_PATH_NAME - p.length) 0) := by
  have h3 := unix_sun_path_of_path g p hg
  refine ⟨?_, ?_, h3, ?_⟩
  · simp [unix_address_of_path, famBytes, AF_UNIX, famOf, List.getD]
  · simp only [unix_address_of_path, famBytes, strncpy, List.length_append,
      List.length_take, List.length_replicate, List.length_drop, List.length_cons,
      List.length_nil, hg]
    simp [sizeof_sockaddr_un, MAX_PATH_NAME, AF_UNIX]
    omega
  · intro hple
    rw [h3, List.take_of_length_le hple]

/-- C7 witness: the theorem at the concrete path "/tmp/sock" over a
garbage-filled object. -/
theorem unix_path_ctor_truncation_witness :
    unix_sun_path (unix_address_of_path garbage110 pathTmpSock) =
      pathTmpSock ++ List.replicate (MAX_PATH_NAME - pathTmpSock.length) 0 :=
  (unix_path_ctor_truncation garbage110 pathTmpSock (by decide)).2.2.2 (by decide)

/-- C8: `inet6_address` equality is the bitwise comparison over
`sizeof(inet6_address)`: it is true exactly on byte-equal values, is
reflexive and symmetric, `operator!=` is its exact negation, and a
copy-constructed address is byte-identical to — and so compares equal to —
its source. -/
theorem inet6_equality_bitwise (a b g : List Nat)
    (ha : a.length = sizeof_sockaddr_in6) (hb : b.length = sizeof_sockaddr_in6)
    (hg : g.length = sizeof_sockaddr_in6) :
    (inet6_address_eq a b = true ↔ a = b) ∧
    inet6_address_eq a a = true ∧
    inet6_address_eq a b = inet6_address_eq b a ∧
    inet6_address_ne a b = !inet6_address_eq a b ∧
    inet6_address_copy g a = a ∧
    inet6_address_eq (inet6_address_copy g a) a = true := by
  have key : ∀ x y : List Nat, x.length = sizeof_sockaddr_in6 →
      y.length = sizeof_sockaddr_in6 → (inet6_address_eq x y = true ↔ x = y) := by
    intro x y hx hy
    have hxt : x.take sizeof_sockaddr_in6 = x := by
      rw [← hx]; exact List.take_length x
    have hyt : y.take sizeof_sockaddr_in6 = y := by
      rw [← hy]; exact List.take_length y
    simp only [inet6_address_eq, hxt, hyt, beq_iff_eq]
    exact memcmpBytes_eq_zero_iff x y (by rw [hx, hy])
  have h1 := key a b ha hb
  have h2 : inet6_address_eq a a = true := (key a a ha ha).mpr rfl
  have hat : a.take sizeof_sockaddr_in6 = a := by
    rw [← ha]; exact List.take_length a
  have h5 : inet6_address_copy g a = a := by
    simp [inet6_address_copy, memcpy, List.drop_eq_nil_of_le hg.le, hat]
  refine ⟨h1, h2, ?_, rfl, h5, by rw [h5]; exact h2⟩
  by_cases hab : a = b
  · rw [hab]
  · have hx : inet6_address_eq a b = false := by
      rcases Bool.eq_false_or_eq_true (inet6_address_eq a b) with h | h
      · exact absurd ((key a b ha hb).mp h) hab
      · exact h
    have hy : inet6_address_eq b a = false := by
      rcases Bool.eq_false_or_eq_true (inet6_address_eq b a) with h | h
      · exact absurd ((key b a hb ha).mp h) (fun e => hab e.symm)
      · exact h
    rw [hx, hy]

/-- C8 witness: the theorem at a concrete address, copied over garbage. -/
theorem inet6_equality_bitwise_witness :
    inet6_address_eq inet6Sample inet6Sample = true ∧
    inet6_address_copy garbage28 inet6Sample = inet6Sample := by
  have h := inet6_equality_bitwise inet6Sample inet6Sample garbage28
    (by decide) (by decide) (by decide)
  exact ⟨h.2.1, h.2.2.2.2.1⟩

/-- C9: streaming a `unix_address` produces exactly the literal `"unix:"`
followed by the stored path — in particular, for an address built from a
NUL-free path shorter than the maximum, exactly `"unix:"` followed by that
path — and the IPv6 textual form is of the shape `"[address]:port"`. -/
theorem address_to_string_forms (a a6 g p : List Nat)
    (hg : g.length = sizeof_sockaddr_un) (hp : ∀ b ∈ p, b ≠ 0)
    (hlen : p.length < MAX_PATH_NAME) :
    unix_show a = unixTag ++ unix_path a ∧
    unix_show (unix_address_of_path g p) = unixTag ++ p ∧
    inet6_to_string a6 =
      [91] ++ inet6_ntop (inet6_address_field a6) ++ [93, 58] ++
        natBytes (inet6_port a6) := by
  refine ⟨rfl, ?_, rfl⟩
  have h3 := unix_sun_path_of_path g p hg
  have htake : p.take MAX_PATH_NAME = p := List.take_of_length_le hlen.le
  have hrep : List.replicate (MAX_PATH_NAME - p.length) 0 =
      0 :: List.replicate (MAX_PATH_NAME - p.length - 1) 0 := by
    have hs : MAX_PATH_NAME - p.length = (MAX_PATH_NAME - p.length - 1) + 1 := by
      simp only [MAX_PATH_NAME] at hlen ⊢
      omega
    nth_rewrite 1 [hs]
    rw [List.replicate_succ]
  show unixTag ++ cString (unix_sun_path (unix_address_of_path g p)) = unixTag ++ p
  rw [h3, htake, hrep, cString_of_nul_free p _ hp]

/-- C9 witness: the theorem at the concrete path "/tmp/sock". -/
theorem address_to_string_forms_witness :
    unix_show (unix_address_of_path garbage110 pathTmpSock) = unixTag ++ pathTmpSock :=
  (address_to_string_forms [] [] garbage110 pathTmpSock (by decide) (by decide)
    (by decide)).2.1

/-- C10: within the domain `0 ≤ i < 16`, `inet6_address::operator[]` reads
exactly the i-th byte of the stored 128-bit address (the `address()`
field) and is defined (never `none`); outside that domain the unchecked
read has no defined value and the embedding yields `none`. -/
theorem inet6_index_within_address (a : List Nat) (i : Int)
    (ha : a.length = sizeof_sockaddr_in6) (h0 : 0 ≤ i) (h16 : i < 16) :
    inet6_index a i = (inet6_address_field a).get? i.toNat ∧
    inet6_index a i ≠ none ∧
    ∀ j : Int, ¬ (0 ≤ j ∧ j < 16) → inet6_index a j = none := by
  have hlen : (inet6_address_field a).length = 16 := by
    simp [inet6_address_field, ha, sizeof_sockaddr_in6]
  have h1 : inet6_index a i = (inet6_address_field a).get? i.toNat := by
    simp [inet6_index, h0, h16]
  refine ⟨h1, ?_, ?_⟩
  · rw [h1]
    intro hn
    have hle := List.get?_eq_none.mp hn
    rw [hlen] at hle
    omega
  · intro j hj
    rw [inet6_index, if_neg hj]

/-- C10 witness: the theorem at index 15 of the concrete `::1` address. -/
theorem inet6_index_within_address_witness :
    inet6_index inet6Sample 15 = (inet6_address_field inet6Sample).get? (Int.toNat 15) :=
  (inet6_index_within_address inet6Sample 15 (by decide) (by decide) (by decide)).1

end Sockpp
